import Mathlib

/-!
Shallow embedding of the `LuckyBall` Solidity contract
(an encrypted lottery on Zama FHEVM).

Addresses are modelled as `Nat`.  Encrypted values (`euint8`, `euint32`)
are modelled by their plaintext contents: an `euint8` plaintext is a
`Nat` reduced modulo 256, an `euint32` score is a `Nat` reduced modulo
2^32 on addition (`FHE.add` wraps).  A player's score slot is an `EVal`:
`uninit` models the default (zero) ciphertext handle a mapping returns
before `_ensureScore` ran for that player — the test suite observes it
as `ethers.ZeroHash` — while `enc v` models an initialized ciphertext
whose plaintext is `v`.  The keccak-derived randomness of
`_generateWinningNumber` is taken as an opaque `Nat` parameter, and
`block.timestamp` as a `Nat` parameter of the operations that read it.
-/

namespace LuckyBall

def TICKET_PRICE : Nat := 1000000000000000

def MIN_NUMBER : Nat := 1

def MAX_NUMBER : Nat := 9

def WIN_REWARD : Nat := 10

/-- Modulus of `euint32` arithmetic. -/
def U32 : Nat := 2 ^ 32

/-- Modulus of `euint8` / `uint8` values. -/
def U8 : Nat := 256

/-- A score slot: `uninit` is the never-written mapping default
(the zero handle), `enc v` an initialized encrypted score of plaintext
`v`. -/
inductive EVal where
  | uninit : EVal
  | enc (v : Nat) : EVal
deriving DecidableEq, Repr

/-- `struct Ticket { euint8 number; uint256 drawId; bool claimed; }`,
with the `euint8` modelled by its 8-bit plaintext. -/
structure Ticket where
  number : Nat
  drawId : Nat
  claimed : Bool
deriving DecidableEq, Repr

/-- `struct Draw { uint8 winningNumber; uint256 executedAt; bool executed; }` -/
structure Draw where
  winningNumber : Nat
  executedAt : Nat
  executed : Bool
deriving DecidableEq, Repr

/-- The default value a Solidity `mapping(uint256 => Draw)` returns for
a key that was never written. -/
def defaultDraw : Draw := { winningNumber := 0, executedAt := 0, executed := false }

/-- Events emitted by the contract. -/
inductive Event where
  | TicketPurchased (player drawId ticketIndex : Nat)
  | DrawExecuted (drawId winningNumber : Nat)
  | TicketClaimProcessed (player drawId ticketIndex : Nat)
deriving DecidableEq, Repr

/-- Revert reasons of the contract's `require` statements, plus the
`NotFound` error the specification document attributes to `getDraw`. -/
inductive Err where
  | InvalidPayment
  | DrawAlreadyExecuted
  | InvalidIndex
  | AlreadyClaimed
  | DrawNotExecuted
  | NotFound
deriving DecidableEq, Repr

/-- Contract storage: the four mappings and the draw counter, plus the
append-only event log. -/
structure State where
  playerTickets : Nat → List Ticket
  playerScores : Nat → EVal
  scoreInitialized : Nat → Bool
  draws : Nat → Draw
  currentDrawId : Nat
  events : List Event

/-- The constructor: `currentDrawId = 1` and
`draws[1] = Draw(0, block.timestamp, false)`; every other mapping slot
holds its default. -/
def initState (timestamp : Nat) : State where
  playerTickets := fun _ => []
  playerScores := fun _ => .uninit
  scoreInitialized := fun _ => false
  draws := fun id => if id = 1 then { winningNumber := 0, executedAt := timestamp, executed := false } else defaultDraw
  currentDrawId := 1
  events := []

/-- `_ensureScore`: on first contact sets the player's score to an
encrypted zero and records initialization; afterwards only re-grants
decryption (no storage change in this model). -/
def ensureScore (s : State) (player : Nat) : State :=
  if s.scoreInitialized player then s
  else
    { s with
      playerScores := fun a => if a = player then .enc 0 else s.playerScores a
      scoreInitialized := fun a => if a = player then true else s.scoreInitialized a }

/-- `buyTicket`: requires `msg.value == TICKET_PRICE`, requires the
active draw unexecuted, imports the external `euint8` (its 8-bit
plaintext is `number % 256`), ensures the score, appends the ticket
bound to `currentDrawId`, emits `TicketPurchased` and returns the new
index. -/
def buyTicket (s : State) (sender number msgValue : Nat) : Except Err (State × Nat) :=
  if msgValue ≠ TICKET_PRICE then .error .InvalidPayment
  else if (s.draws s.currentDrawId).executed then .error .DrawAlreadyExecuted
  else
    let s1 := ensureScore s sender
    let index := (s1.playerTickets sender).length
    let ticket : Ticket := { number := number % U8, drawId := s1.currentDrawId, claimed := false }
    .ok ({ s1 with
            playerTickets := fun a => if a = sender then s1.playerTickets a ++ [ticket] else s1.playerTickets a
            events := s1.events ++ [.TicketPurchased sender s1.currentDrawId index] },
         index)

/-- `_generateWinningNumber`: `uint8((randomness % MAX_NUMBER) + MIN_NUMBER)`
with `randomness` the keccak output, taken opaque. -/
def generateWinningNumber (randomness : Nat) : Nat :=
  (randomness % MAX_NUMBER + MIN_NUMBER) % U8

/-- `executeDraw`: requires the active draw unexecuted, derives the
winning number, marks the draw executed at the current timestamp, emits
`DrawExecuted`, then increments `currentDrawId` and creates the next
draw fresh. -/
def executeDraw (s : State) (randomness timestamp : Nat) : Except Err (State × Nat) :=
  if (s.draws s.currentDrawId).executed then .error .DrawAlreadyExecuted
  else
    let result := generateWinningNumber randomness
    .ok ({ s with
            draws := fun id =>
              if id = s.currentDrawId then { winningNumber := result, executedAt := timestamp, executed := true }
              else if id = s.currentDrawId + 1 then { winningNumber := 0, executedAt := timestamp, executed := false }
              else s.draws id
            currentDrawId := s.currentDrawId + 1
            events := s.events ++ [.DrawExecuted s.currentDrawId result] },
         result)

/-- `FHE.add` on an `euint32` score followed by `FHE.select`:
`add` wraps modulo `2^32`; on the never-written default handle the FHE
operations do not produce an initialized ciphertext, kept abstract as
`uninit` (unreachable in contract executions: a claimable ticket implies
`_ensureScore` ran). -/
def addScore : EVal → Nat → EVal
  | .uninit, _ => .uninit
  | .enc v, n => .enc ((v + n) % U32)

/-- `claimTicket`: requires `ticketIndex < playerTickets[sender].length`
(`Invalid ticket index`), the ticket unclaimed (`Already processed`),
its draw executed (`Draw not executed`); then computes the encrypted
equality of the ticket number with the winning number, conditionally
adds `WIN_REWARD`, stores the selected score, marks the ticket claimed
and emits `TicketClaimProcessed`. -/
def claimTicket (s : State) (sender ticketIndex : Nat) : Except Err State :=
  match (s.playerTickets sender)[ticketIndex]? with
  | none => .error .InvalidIndex
  | some ticket =>
    if ticket.claimed then .error .AlreadyClaimed
    else if (s.draws ticket.drawId).executed = false then .error .DrawNotExecuted
    else
      let isWinner := ticket.number = (s.draws ticket.drawId).winningNumber
      let currentScore := s.playerScores sender
      let incremented := addScore currentScore WIN_REWARD
      let nextScore := if isWinner then incremented else currentScore
      .ok { s with
            playerScores := fun a => if a = sender then nextScore else s.playerScores a
            playerTickets := fun a =>
              if a = sender then (s.playerTickets sender).set ticketIndex { ticket with claimed := true }
              else s.playerTickets a
            events := s.events ++ [.TicketClaimProcessed sender ticket.drawId ticketIndex] }

/-- `getScore` view. -/
def getScore (s : State) (player : Nat) : EVal := s.playerScores player

/-- `getTickets` view. -/
def getTickets (s : State) (player : Nat) : List Ticket := s.playerTickets player

/-- `getDraw` view: `return draws[drawId]` — total, never reverts. -/
def getDraw (s : State) (drawId : Nat) : Draw := s.draws drawId

/-- `totalTickets` view. -/
def totalTickets (s : State) (player : Nat) : Nat := (s.playerTickets player).length

/-- Modelled from the spec: `get(drawId) → Draw` of the Draw Registry,
"returns the draw, or a not-found error if the id was never created".
The created ids are `1 .. currentDrawId`.  This definition follows the
specification's words (the contract's `getDraw` above follows the code)
so the two can be compared. -/
def getDrawSpec (s : State) (drawId : Nat) : Except Err Draw :=
  if 1 ≤ drawId ∧ drawId ≤ s.currentDrawId then .ok (s.draws drawId) else .error .NotFound

/-- One external call, with its environment inputs. -/
inductive Op where
  | buy (sender number msgValue : Nat)
  | draw (randomness timestamp : Nat)
  | claim (sender ticketIndex : Nat)

/-- Transaction semantics: a reverted call leaves storage unchanged. -/
def applyOp (s : State) : Op → State
  | .buy sender number msgValue =>
    match buyTicket s sender number msgValue with
    | .ok (s', _) => s'
    | .error _ => s
  | .draw randomness timestamp =>
    match executeDraw s randomness timestamp with
    | .ok (s', _) => s'
    | .error _ => s
  | .claim sender ticketIndex =>
    match claimTicket s sender ticketIndex with
    | .ok s' => s'
    | .error _ => s

/-- States reachable from some deployment by a sequence of external
calls. -/
inductive Reachable : State → Prop where
  | init (timestamp : Nat) : Reachable (initState timestamp)
  | step {s : State} (op : Op) : Reachable s → Reachable (applyOp s op)

/-- Invariant on the draw registry: the counter is at least 1, every
created draw below the counter is executed, the draw at the counter
exists and is unexecuted, and every never-created slot (id 0, or beyond
the counter) holds the mapping default. -/
def Inv (s : State) : Prop :=
  1 ≤ s.currentDrawId ∧
  (∀ id, 0 < id → id < s.currentDrawId → (s.draws id).executed = true) ∧
  (s.draws s.currentDrawId).executed = false ∧
  (∀ id, id = 0 ∨ s.currentDrawId < id → s.draws id = defaultDraw)

/-- A player's score slot is the uninitialized handle exactly until
`_ensureScore` ran for that player. -/
def ScoreInv (s : State) : Prop :=
  ∀ p, (s.scoreInitialized p = false → s.playerScores p = .uninit) ∧
       (s.scoreInitialized p = true → ∃ v, s.playerScores p = .enc v)

/-- Player 7 buys a ticket with (plaintext) chosen number 1 right after
deployment. -/
def stBuy : State := applyOp (initState 0) (.buy 7 1 TICKET_PRICE)

/-- The first draw is then executed with randomness 0 at time 5; the
winning number is `generateWinningNumber 0 = 1`. -/
def stDrawn : State := applyOp stBuy (.draw 0 5)

/-- Player 7 then claims the (winning) ticket. -/
def stClaimed : State := applyOp stDrawn (.claim 7 0)

/-! ### Helper lemmas: `ensureScore` frame -/

theorem ensureScore_playerTickets (s : State) (p : Nat) :
    (ensureScore s p).playerTickets = s.playerTickets := by
  unfold ensureScore; split <;> rfl

theorem ensureScore_draws (s : State) (p : Nat) :
    (ensureScore s p).draws = s.draws := by
  unfold ensureScore; split <;> rfl

theorem ensureScore_currentDrawId (s : State) (p : Nat) :
    (ensureScore s p).currentDrawId = s.currentDrawId := by
  unfold ensureScore; split <;> rfl

theorem ensureScore_events (s : State) (p : Nat) :
    (ensureScore s p).events = s.events := by
  unfold ensureScore; split <;> rfl

theorem ensureScore_scoreInitialized_self (s : State) (p : Nat) :
    (ensureScore s p).scoreInitialized p = true := by
  unfold ensureScore; split
  · assumption
  · simp

theorem ensureScore_frame_other (s : State) (p q : Nat) (hq : q ≠ p) :
    (ensureScore s p).scoreInitialized q = s.scoreInitialized q ∧
    (ensureScore s p).playerScores q = s.playerScores q := by
  unfold ensureScore; split
  · exact ⟨rfl, rfl⟩
  · simp [hq]

theorem ensureScore_score_self (s : State) (p : Nat) :
    (ensureScore s p).playerScores p =
      (if s.scoreInitialized p then s.playerScores p else .enc 0) := by
  unfold ensureScore; split <;> simp_all

/-! ### Helper lemmas: `buyTicket` characterization -/

theorem buyTicket_ok_cases {s : State} {sender number msgValue : Nat}
    {s' : State} {idx : Nat}
    (h : buyTicket s sender number msgValue = .ok (s', idx)) :
    msgValue = TICKET_PRICE ∧
    (s.draws s.currentDrawId).executed = false ∧
    idx = (s.playerTickets sender).length ∧
    s'.playerTickets sender =
      s.playerTickets sender ++ [⟨number % U8, s.currentDrawId, false⟩] ∧
    (∀ q, q ≠ sender → s'.playerTickets q = s.playerTickets q) ∧
    s'.draws = s.draws ∧
    s'.currentDrawId = s.currentDrawId ∧
    s'.events = s.events ++
      [.TicketPurchased sender s.currentDrawId ((s.playerTickets sender).length)] ∧
    s'.scoreInitialized sender = true ∧
    (∀ q, q ≠ sender → s'.scoreInitialized q = s.scoreInitialized q ∧
      s'.playerScores q = s.playerScores q) ∧
    s'.playerScores sender =
      (if s.scoreInitialized sender then s.playerScores sender else .enc 0) := by
  unfold buyTicket at h
  split at h
  · exact absurd h (by simp)
  · split at h
    · exact absurd h (by simp)
    · rename_i hv hex
      simp only [Except.ok.injEq, Prod.mk.injEq] at h
      obtain ⟨hs, hidx⟩ := h
      subst hs
      refine ⟨by omega, by simpa using hex, ?_, ?_, ?_, ?_, ?_, ?_, ?_, ?_, ?_⟩
      · simpa [ensureScore_playerTickets] using hidx.symm
      · simp [ensureScore_playerTickets, ensureScore_currentDrawId]
      · intro q hq
        simp [ensureScore_playerTickets, hq]
      · simp [ensureScore_draws]
      · simp [ensureScore_currentDrawId]
      · simp [ensureScore_events, ensureScore_currentDrawId, ensureScore_playerTickets]
      · simpa using ensureScore_scoreInitialized_self s sender
      · intro q hq
        simpa using ensureScore_frame_other s sender q hq
      · simpa using ensureScore_score_self s sender

theorem buyTicket_invalidPayment_iff (s : State) (sender number msgValue : Nat) :
    buyTicket s sender number msgValue = .error .InvalidPayment ↔
      msgValue ≠ TICKET_PRICE := by
  unfold buyTicket
  split
  · simp_all
  · split <;> simp_all

theorem buyTicket_ok_of (s : State) (sender number : Nat)
    (hex : (s.draws s.currentDrawId).executed = false) :
    ∃ s' idx, buyTicket s sender number TICKET_PRICE = .ok (s', idx) := by
  unfold buyTicket
  split
  · simp_all
  · split
    · simp_all
    · exact ⟨_, _, rfl⟩

theorem buyTicket_error_state (s : State) (sender number msgValue : Nat)
    (e : Err) (h : buyTicket s sender number msgValue = .error e) :
    applyOp s (.buy sender number msgValue) = s := by
  simp [applyOp, h]

/-! ### Helper lemmas: `executeDraw` characterization -/

theorem executeDraw_ok_cases {s : State} {randomness timestamp : Nat}
    {s' : State} {w : Nat}
    (h : executeDraw s randomness timestamp = .ok (s', w)) :
    (s.draws s.currentDrawId).executed = false ∧
    w = generateWinningNumber randomness ∧
    s'.currentDrawId = s.currentDrawId + 1 ∧
    s'.draws s.currentDrawId = ⟨w, timestamp, true⟩ ∧
    s'.draws (s.currentDrawId + 1) = ⟨0, timestamp, false⟩ ∧
    (∀ d, d ≠ s.currentDrawId → d ≠ s.currentDrawId + 1 → s'.draws d = s.draws d) ∧
    s'.playerTickets = s.playerTickets ∧
    s'.playerScores = s.playerScores ∧
    s'.scoreInitialized = s.scoreInitialized ∧
    s'.events = s.events ++ [.DrawExecuted s.currentDrawId w] := by
  unfold executeDraw at h
  split at h
  · exact absurd h (by simp)
  · rename_i hex
    simp only [Except.ok.injEq, Prod.mk.injEq] at h
    obtain ⟨hs, hw⟩ := h
    subst hs
    refine ⟨by simpa using hex, hw.symm, rfl, ?_, ?_, ?_, rfl, rfl, rfl, by simp [hw]⟩
    · simp [hw]
    · have : s.currentDrawId + 1 ≠ s.currentDrawId := by omega
      simp [this, hw]
    · intro d hd hd'
      simp [hd, hd']

theorem executeDraw_ok_of (s : State)
    (hex : (s.draws s.currentDrawId).executed = false) (randomness timestamp : Nat) :
    ∃ s', executeDraw s randomness timestamp =
      .ok (s', generateWinningNumber randomness) := by
  unfold executeDraw
  split
  · simp_all
  · exact ⟨_, rfl⟩

theorem executeDraw_error_of (s : State)
    (hex : (s.draws s.currentDrawId).executed = true) (randomness timestamp : Nat) :
    executeDraw s randomness timestamp = .error .DrawAlreadyExecuted := by
  unfold executeDraw
  split
  · rfl
  · simp_all

/-! ### Helper lemmas: `claimTicket` characterization -/

theorem claimTicket_ok_cases {s : State} {sender ticketIndex : Nat} {s' : State}
    (h : claimTicket s sender ticketIndex = .ok s') :
    ∃ tk, (s.playerTickets sender)[ticketIndex]? = some tk ∧
      tk.claimed = false ∧
      (s.draws tk.drawId).executed = true ∧
      s'.playerTickets sender =
        (s.playerTickets sender).set ticketIndex { tk with claimed := true } ∧
      (∀ q, q ≠ sender → s'.playerTickets q = s.playerTickets q) ∧
      s'.playerScores sender =
        (if tk.number = (s.draws tk.drawId).winningNumber
         then addScore (s.playerScores sender) WIN_REWARD
         else s.playerScores sender) ∧
      (∀ q, q ≠ sender → s'.playerScores q = s.playerScores q) ∧
      s'.scoreInitialized = s.scoreInitialized ∧
      s'.draws = s.draws ∧
      s'.currentDrawId = s.currentDrawId ∧
      s'.events = s.events ++ [.TicketClaimProcessed sender tk.drawId ticketIndex] := by
  unfold claimTicket at h
  split at h
  · exact absurd h (by simp)
  · rename_i tk htk
    split at h
    · exact absurd h (by simp)
    · split at h
      · exact absurd h (by simp)
      · rename_i hcl hex
        simp only [Except.ok.injEq] at h
        subst h
        refine ⟨tk, htk, by simpa using hcl, by simpa using hex, by simp, ?_, ?_, ?_, rfl, rfl, rfl, rfl⟩
        · intro q hq; simp [hq]
        · simp
        · intro q hq; simp [hq]

theorem claimTicket_invalidIndex_iff (s : State) (sender ticketIndex : Nat) :
    claimTicket s sender ticketIndex = .error .InvalidIndex ↔
      (s.playerTickets sender).length ≤ ticketIndex := by
  unfold claimTicket
  split
  · rename_i hnone
    simp [List.getElem?_eq_none_iff.mp hnone]
  · rename_i tk htk
    have hlt := (List.getElem?_eq_some.mp htk).1
    split
    · simp; omega
    · split <;> simp <;> omega

theorem claimTicket_alreadyClaimed_iff (s : State) (sender ticketIndex : Nat)
    (tk : Ticket) (htk : (s.playerTickets sender)[ticketIndex]? = some tk) :
    claimTicket s sender ticketIndex = .error .AlreadyClaimed ↔ tk.claimed = true := by
  unfold claimTicket
  rw [htk]
  split
  · simp_all
  · split
    · simp_all
    · split <;> simp_all

theorem claimTicket_drawNotExecuted_iff (s : State) (sender ticketIndex : Nat)
    (tk : Ticket) (htk : (s.playerTickets sender)[ticketIndex]? = some tk)
    (hcl : tk.claimed = false) :
    claimTicket s sender ticketIndex = .error .DrawNotExecuted ↔
      (s.draws tk.drawId).executed = false := by
  unfold claimTicket
  rw [htk]
  split
  · simp_all
  · split <;> simp_all

theorem claimTicket_ok_of (s : State) (sender ticketIndex : Nat)
    (tk : Ticket) (htk : (s.playerTickets sender)[ticketIndex]? = some tk)
    (hcl : tk.claimed = false) (hex : (s.draws tk.drawId).executed = true) :
    ∃ s', claimTicket s sender ticketIndex = .ok s' := by
  unfold claimTicket
  rw [htk]
  split
  · simp_all
  · split
    · simp_all
    · split
      · simp_all
      · exact ⟨_, rfl⟩

/-! ### The draw-registry invariant and its preservation -/

theorem inv_init (timestamp : Nat) : Inv (initState timestamp) := by
  refine ⟨le_refl 1, ?_, ?_, ?_⟩
  · intro id hpos hlt
    simp only [initState] at hlt
    omega
  · simp [initState]
  · intro id hid
    simp only [initState] at hid ⊢
    have : id ≠ 1 := by omega
    simp [this]

theorem applyOp_buy_ok {s : State} {sender number msgValue : Nat} {s' : State}
    {idx : Nat} (hb : buyTicket s sender number msgValue = .ok (s', idx)) :
    applyOp s (.buy sender number msgValue) = s' := by
  simp [applyOp, hb]

theorem applyOp_buy_error {s : State} {sender number msgValue : Nat} {e : Err}
    (hb : buyTicket s sender number msgValue = .error e) :
    applyOp s (.buy sender number msgValue) = s := by
  simp [applyOp, hb]

theorem applyOp_draw_ok {s : State} {randomness timestamp : Nat} {s' : State}
    {w : Nat} (hb : executeDraw s randomness timestamp = .ok (s', w)) :
    applyOp s (.draw randomness timestamp) = s' := by
  simp [applyOp, hb]

theorem applyOp_draw_error {s : State} {randomness timestamp : Nat} {e : Err}
    (hb : executeDraw s randomness timestamp = .error e) :
    applyOp s (.draw randomness timestamp) = s := by
  simp [applyOp, hb]

theorem applyOp_claim_ok {s : State} {sender ticketIndex : Nat} {s' : State}
    (hb : claimTicket s sender ticketIndex = .ok s') :
    applyOp s (.claim sender ticketIndex) = s' := by
  simp [applyOp, hb]

theorem applyOp_claim_error {s : State} {sender ticketIndex : Nat} {e : Err}
    (hb : claimTicket s sender ticketIndex = .error e) :
    applyOp s (.claim sender ticketIndex) = s := by
  simp [applyOp, hb]

theorem inv_of_draws_eq {s s' : State} (hd : s'.draws = s.draws)
    (hc : s'.currentDrawId = s.currentDrawId) (h : Inv s) : Inv s' := by
  obtain ⟨h1, h2, h3, h4⟩ := h
  exact ⟨hc ▸ h1, by rw [hd, hc]; exact h2, by rw [hd, hc]; exact h3,
    by rw [hd, hc]; exact h4⟩

theorem inv_executeDraw_ok {s : State} {randomness timestamp : Nat} {s' : State}
    {w : Nat} (h : Inv s)
    (hb : executeDraw s randomness timestamp = .ok (s', w)) : Inv s' := by
  obtain ⟨-, -, hc, hcur, hnext, hother, -, -, -, -⟩ := executeDraw_ok_cases hb
  obtain ⟨h1, h2, h3, h4⟩ := h
  refine ⟨by omega, ?_, ?_, ?_⟩
  · intro id hpos hlt
    rw [hc] at hlt
    by_cases hid : id = s.currentDrawId
    · subst hid; rw [hcur]
    · have hne' : id ≠ s.currentDrawId + 1 := by omega
      rw [hother id hid hne']
      exact h2 id hpos (by omega)
  · rw [hc, hnext]
  · intro id hid
    rw [hc] at hid
    have hne : id ≠ s.currentDrawId := by omega
    have hne' : id ≠ s.currentDrawId + 1 := by omega
    rw [hother id hne hne']
    exact h4 id (by omega)

theorem inv_applyOp {s : State} (h : Inv s) (op : Op) : Inv (applyOp s op) := by
  cases op with
  | buy sender number msgValue =>
    cases hb : buyTicket s sender number msgValue with
    | ok out =>
      obtain ⟨s', idx⟩ := out
      rw [applyOp_buy_ok hb]
      obtain ⟨-, -, -, -, -, hd, hc, -⟩ := buyTicket_ok_cases hb
      exact inv_of_draws_eq hd hc h
    | error e => rw [applyOp_buy_error hb]; exact h
  | draw randomness timestamp =>
    cases hb : executeDraw s randomness timestamp with
    | ok out =>
      obtain ⟨s', w⟩ := out
      rw [applyOp_draw_ok hb]
      exact inv_executeDraw_ok h hb
    | error e => rw [applyOp_draw_error hb]; exact h
  | claim sender ticketIndex =>
    cases hb : claimTicket s sender ticketIndex with
    | ok s' =>
      rw [applyOp_claim_ok hb]
      obtain ⟨tk, -, -, -, -, -, -, -, -, hd, hc, -⟩ := claimTicket_ok_cases hb
      exact inv_of_draws_eq hd hc h
    | error e => rw [applyOp_claim_error hb]; exact h

theorem reachable_inv {s : State} (h : Reachable s) : Inv s := by
  induction h with
  | init timestamp => exact inv_init timestamp
  | step op _ ih => exact inv_applyOp ih op

/-- Frame lemma: once a draw is executed, no operation changes its
stored record again. -/
theorem executed_draw_frame {s : State} (hInv : Inv s) (d : Nat)
    (hex : (s.draws d).executed = true) (op : Op) :
    (applyOp s op).draws d = s.draws d := by
  cases op with
  | buy sender number msgValue =>
    cases hb : buyTicket s sender number msgValue with
    | ok out =>
      obtain ⟨s', idx⟩ := out
      rw [applyOp_buy_ok hb]
      obtain ⟨-, -, -, -, -, hd, -, -⟩ := buyTicket_ok_cases hb
      rw [hd]
    | error e => rw [applyOp_buy_error hb]
  | draw randomness timestamp =>
    cases hb : executeDraw s randomness timestamp with
    | ok out =>
      obtain ⟨s', w⟩ := out
      rw [applyOp_draw_ok hb]
      obtain ⟨-, -, -, -, -, hother, -, -, -, -⟩ := executeDraw_ok_cases hb
      obtain ⟨h1, h2, h3, h4⟩ := hInv
      have hne : d ≠ s.currentDrawId := fun hc => by rw [hc] at hex; rw [hex] at h3; cases h3
      have hne' : d ≠ s.currentDrawId + 1 := by
        intro hc
        have := h4 d (Or.inr (by omega))
        rw [this] at hex
        simp [defaultDraw] at hex
      exact hother d hne hne'
    | error e => rw [applyOp_draw_error hb]
  | claim sender ticketIndex =>
    cases hb : claimTicket s sender ticketIndex with
    | ok s' =>
      rw [applyOp_claim_ok hb]
      obtain ⟨tk, -, -, -, -, -, -, -, -, hd, -, -⟩ := claimTicket_ok_cases hb
      rw [hd]
    | error e => rw [applyOp_claim_error hb]

/-! ### Ticket-ledger monotonicity helpers -/

theorem ticket_persistent_applyOp (s : State) (op : Op) (p i : Nat) (tk : Ticket)
    (htk : (s.playerTickets p)[i]? = some tk) :
    ∃ tk', ((applyOp s op).playerTickets p)[i]? = some tk' ∧
      tk'.number = tk.number ∧ tk'.drawId = tk.drawId ∧
      (tk.claimed = true → tk'.claimed = true) := by
  have hi : i < (s.playerTickets p).length := (List.getElem?_eq_some.mp htk).1
  cases op with
  | buy sender number msgValue =>
    cases hb : buyTicket s sender number msgValue with
    | ok out =>
      obtain ⟨s', idx⟩ := out
      rw [applyOp_buy_ok hb]
      obtain ⟨-, -, -, hself, hother, -, -, -, -, -, -⟩ := buyTicket_ok_cases hb
      by_cases hp : p = sender
      · subst hp
        rw [hself, List.getElem?_append_left hi, htk]
        exact ⟨tk, rfl, rfl, rfl, fun h => h⟩
      · rw [hother p hp, htk]
        exact ⟨tk, rfl, rfl, rfl, fun h => h⟩
    | error e =>
      rw [applyOp_buy_error hb]
      exact ⟨tk, htk, rfl, rfl, fun h => h⟩
  | draw randomness timestamp =>
    cases hb : executeDraw s randomness timestamp with
    | ok out =>
      obtain ⟨s', w⟩ := out
      rw [applyOp_draw_ok hb]
      obtain ⟨-, -, -, -, -, -, ht, -, -, -⟩ := executeDraw_ok_cases hb
      rw [ht]
      exact ⟨tk, htk, rfl, rfl, fun h => h⟩
    | error e =>
      rw [applyOp_draw_error hb]
      exact ⟨tk, htk, rfl, rfl, fun h => h⟩
  | claim sender ticketIndex =>
    cases hb : claimTicket s sender ticketIndex with
    | ok s' =>
      rw [applyOp_claim_ok hb]
      obtain ⟨tk0, htk0, -, -, hself, hother, -, -, -, -, -, -⟩ := claimTicket_ok_cases hb
      by_cases hp : p = sender
      · subst hp
        by_cases hij : ticketIndex = i
        · subst hij
          rw [htk0] at htk
          cases htk
          rw [hself, List.getElem?_set_eq_of_lt _ hi]
          exact ⟨_, rfl, rfl, rfl, fun _ => rfl⟩
        · rw [hself, List.getElem?_set_ne hij, htk]
          exact ⟨tk, rfl, rfl, rfl, fun h => h⟩
      · rw [hother p hp, htk]
        exact ⟨tk, rfl, rfl, rfl, fun h => h⟩
    | error e =>
      rw [applyOp_claim_error hb]
      exact ⟨tk, htk, rfl, rfl, fun h => h⟩

theorem ticketCount_mono_applyOp (s : State) (op : Op) (p : Nat) :
    (s.playerTickets p).length ≤ ((applyOp s op).playerTickets p).length := by
  cases op with
  | buy sender number msgValue =>
    cases hb : buyTicket s sender number msgValue with
    | ok out =>
      obtain ⟨s', idx⟩ := out
      rw [applyOp_buy_ok hb]
      obtain ⟨-, -, -, hself, hother, -, -, -, -, -, -⟩ := buyTicket_ok_cases hb
      by_cases hp : p = sender
      · subst hp; rw [hself]; simp
      · rw [hother p hp]
    | error e => rw [applyOp_buy_error hb]
  | draw randomness timestamp =>
    cases hb : executeDraw s randomness timestamp with
    | ok out =>
      obtain ⟨s', w⟩ := out
      rw [applyOp_draw_ok hb]
      obtain ⟨-, -, -, -, -, -, ht, -, -, -⟩ := executeDraw_ok_cases hb
      rw [ht]
    | error e => rw [applyOp_draw_error hb]
  | claim sender ticketIndex =>
    cases hb : claimTicket s sender ticketIndex with
    | ok s' =>
      rw [applyOp_claim_ok hb]
      obtain ⟨tk0, -, -, -, hself, hother, -, -, -, -, -, -⟩ := claimTicket_ok_cases hb
      by_cases hp : p = sender
      · subst hp; rw [hself]; simp
      · rw [hother p hp]
    | error e => rw [applyOp_claim_error hb]

/-! ### The score-ledger invariant -/

theorem scoreInv_init (timestamp : Nat) : ScoreInv (initState timestamp) := by
  intro p
  constructor
  · intro _; rfl
  · intro h; simp [initState] at h

theorem scoreInv_applyOp {s : State} (h : ScoreInv s) (op : Op) :
    ScoreInv (applyOp s op) := by
  cases op with
  | buy sender number msgValue =>
    cases hb : buyTicket s sender number msgValue with
    | ok out =>
      obtain ⟨s', idx⟩ := out
      rw [applyOp_buy_ok hb]
      obtain ⟨-, -, -, -, -, -, -, -, hinit, hother, hscore⟩ := buyTicket_ok_cases hb
      intro p
      by_cases hp : p = sender
      · subst hp
        refine ⟨fun hc => ?_, fun _ => ?_⟩
        · rw [hinit] at hc; cases hc
        · rw [hscore]
          split
          · rename_i hsi
            exact (h p).2 hsi
          · exact ⟨0, rfl⟩
      · obtain ⟨hsi, hsc⟩ := hother p hp
        rw [hsi, hsc]
        exact h p
    | error e => rw [applyOp_buy_error hb]; exact h
  | draw randomness timestamp =>
    cases hb : executeDraw s randomness timestamp with
    | ok out =>
      obtain ⟨s', w⟩ := out
      rw [applyOp_draw_ok hb]
      obtain ⟨-, -, -, -, -, -, -, hsc, hsi, -⟩ := executeDraw_ok_cases hb
      intro p
      rw [hsc, hsi]
      exact h p
    | error e => rw [applyOp_draw_error hb]; exact h
  | claim sender ticketIndex =>
    cases hb : claimTicket s sender ticketIndex with
    | ok s' =>
      rw [applyOp_claim_ok hb]
      obtain ⟨tk, -, -, -, -, hother, hscore, hother', hsi, -, -, -⟩ := claimTicket_ok_cases hb
      intro p
      by_cases hp : p = sender
      · subst hp
        rw [hsi, hscore]
        refine ⟨fun hc => ?_, fun hc => ?_⟩
        · have := (h p).1 hc
          rw [this]
          split <;> simp [addScore]
        · obtain ⟨v, hv⟩ := (h p).2 hc
          rw [hv]
          split
          · exact ⟨(v + WIN_REWARD) % U32, rfl⟩
          · exact ⟨v, rfl⟩
      · rw [hsi, hother' p hp]
        exact h p
    | error e => rw [applyOp_claim_error hb]; exact h

theorem reachable_scoreInv {s : State} (h : Reachable s) : ScoreInv s := by
  induction h with
  | init timestamp => exact scoreInv_init timestamp
  | step op _ ih => exact scoreInv_applyOp ih op

/-! ### Concrete executions used by the witnesses -/

theorem stBuy_reachable : Reachable stBuy :=
  .step (.buy 7 1 TICKET_PRICE) (.init 0)

theorem stDrawn_reachable : Reachable stDrawn :=
  .step (.draw 0 5) stBuy_reachable

theorem stClaimed_reachable : Reachable stClaimed :=
  .step (.claim 7 0) stDrawn_reachable

/-! ### Claim theorems -/

/-- Claim C3: in every reachable state exactly one draw is unresolved,
namely the one at `currentDrawId`; draw ids start at 1 (slot 0 was never
created); every created draw below the counter is executed and never
changes again under any operation (so no draw is resolved twice and
`winningNumber` is immutable once set); and resolving the active draw
atomically marks it executed and creates draw `currentDrawId + 1` as the
new active unresolved draw. -/
theorem claim_C3 (s : State) (h : Reachable s) :
    1 ≤ s.currentDrawId ∧
    s.draws 0 = defaultDraw ∧
    (∀ id, 1 ≤ id → id ≤ s.currentDrawId →
      ((s.draws id).executed = true ↔ id < s.currentDrawId)) ∧
    (∀ d op, (s.draws d).executed = true → (applyOp s op).draws d = s.draws d) ∧
    (∀ randomness timestamp, ∃ s',
      executeDraw s randomness timestamp = .ok (s', generateWinningNumber randomness) ∧
      s'.currentDrawId = s.currentDrawId + 1 ∧
      s'.draws s.currentDrawId = ⟨generateWinningNumber randomness, timestamp, true⟩ ∧
      s'.draws (s.currentDrawId + 1) = ⟨0, timestamp, false⟩) := by
  have hInv := reachable_inv h
  obtain ⟨h1, h2, h3, h4⟩ := hInv
  refine ⟨h1, h4 0 (Or.inl rfl), ?_, ?_, ?_⟩
  · intro id hid1 hid2
    constructor
    · intro hex
      rcases Nat.lt_or_ge id s.currentDrawId with hlt | hge
      · exact hlt
      · have : id = s.currentDrawId := by omega
        rw [this] at hex
        rw [hex] at h3
        cases h3
    · intro hlt
      exact h2 id (by omega) hlt
  · intro d op hex
    exact executed_draw_frame ⟨h1, h2, h3, h4⟩ d hex op
  · intro randomness timestamp
    obtain ⟨s', hok⟩ := executeDraw_ok_of s h3 randomness timestamp
    obtain ⟨-, -, hc, hcur, hnext, -, -, -, -, -⟩ := executeDraw_ok_cases hok
    exact ⟨s', hok, hc, hcur, hnext⟩

/-- Witness for C3 at the freshly deployed state. -/
theorem claim_C3_witness :
    Reachable (initState 0) ∧
    (1 ≤ (initState 0).currentDrawId ∧
     (initState 0).draws 0 = defaultDraw ∧
     (∀ id, 1 ≤ id → id ≤ (initState 0).currentDrawId →
       (((initState 0).draws id).executed = true ↔ id < (initState 0).currentDrawId)) ∧
     (∀ d op, ((initState 0).draws d).executed = true →
       (applyOp (initState 0) op).draws d = (initState 0).draws d) ∧
     (∀ randomness timestamp, ∃ s',
       executeDraw (initState 0) randomness timestamp =
         .ok (s', generateWinningNumber randomness) ∧
       s'.currentDrawId = (initState 0).currentDrawId + 1 ∧
       s'.draws (initState 0).currentDrawId =
         ⟨generateWinningNumber randomness, timestamp, true⟩ ∧
       s'.draws ((initState 0).currentDrawId + 1) = ⟨0, timestamp, false⟩)) :=
  ⟨.init 0, claim_C3 (initState 0) (.init 0)⟩

/-- Counterexample for C4 as stated: draw id 2 was never created in the
freshly deployed state (the counter is 1), yet `getDraw` does not fail —
it returns the mapping's default record, while the Draw Registry
specification's `get` returns `NotFound` there. -/
theorem claim_C4_counterexample :
    (initState 0).currentDrawId = 1 ∧
    getDraw (initState 0) 2 = defaultDraw ∧
    getDrawSpec (initState 0) 2 = .error .NotFound ∧
    getDrawSpec (initState 0) 2 ≠ .ok (getDraw (initState 0) 2) := by
  refine ⟨rfl, by decide, rfl, fun hc => nomatch hc⟩

/-- Claim C4 (amended): `getDraw` never fails; for every never-created
id (0, or beyond the current draw id) it returns the default record
`⟨0, 0, false⟩`, and for every created id it returns that draw's stored
data (agreeing there with the specification's not-found-failing
registry `get`). -/
theorem claim_C4 (s : State) (h : Reachable s) :
    (∀ id, id = 0 ∨ s.currentDrawId < id → getDraw s id = defaultDraw) ∧
    (∀ id, getDraw s id = s.draws id) ∧
    (∀ id, 1 ≤ id → id ≤ s.currentDrawId → getDrawSpec s id = .ok (getDraw s id)) := by
  have hInv := reachable_inv h
  obtain ⟨h1, h2, h3, h4⟩ := hInv
  refine ⟨fun id hid => h4 id hid, fun id => rfl, fun id hid1 hid2 => ?_⟩
  unfold getDrawSpec
  rw [if_pos ⟨hid1, hid2⟩]
  rfl

/-- Witness for C4 (amended) at the freshly deployed state. -/
theorem claim_C4_witness :
    Reachable (initState 0) ∧
    ((∀ id, id = 0 ∨ (initState 0).currentDrawId < id →
       getDraw (initState 0) id = defaultDraw) ∧
     (∀ id, getDraw (initState 0) id = (initState 0).draws id) ∧
     (∀ id, 1 ≤ id → id ≤ (initState 0).currentDrawId →
       getDrawSpec (initState 0) id = .ok (getDraw (initState 0) id))) :=
  ⟨.init 0, claim_C4 (initState 0) (.init 0)⟩

/-- Claim C10: in every reachable state the draw at the current id is
unexecuted, so `executeDraw` always succeeds, `buyTicket` never fails
its draw-already-executed check for any payment, and a purchase with the
exact price always succeeds. -/
theorem claim_C10 (s : State) (h : Reachable s) :
    (s.draws s.currentDrawId).executed = false ∧
    (∀ randomness timestamp, ∃ s',
      executeDraw s randomness timestamp = .ok (s', generateWinningNumber randomness)) ∧
    (∀ randomness timestamp e, executeDraw s randomness timestamp ≠ .error e) ∧
    (∀ p n v, buyTicket s p n v ≠ .error .DrawAlreadyExecuted) ∧
    (∀ p n, ∃ s' idx, buyTicket s p n TICKET_PRICE = .ok (s', idx)) := by
  have hInv := reachable_inv h
  obtain ⟨h1, h2, h3, h4⟩ := hInv
  refine ⟨h3, fun randomness timestamp => executeDraw_ok_of s h3 randomness timestamp,
    ?_, ?_, fun p n => buyTicket_ok_of s p n h3⟩
  · intro randomness timestamp e hc
    obtain ⟨s', hok⟩ := executeDraw_ok_of s h3 randomness timestamp
    rw [hok] at hc
    cases hc
  · intro p n v hc
    unfold buyTicket at hc
    split at hc
    · exact absurd hc (by simp)
    · split at hc
      · rename_i hex
        rw [h3] at hex
        cases hex
      · exact absurd hc (by simp)

/-- Witness for C10 at the state reached after one purchase. -/
theorem claim_C10_witness :
    Reachable stBuy ∧
    ((stBuy.draws stBuy.currentDrawId).executed = false ∧
     (∀ randomness timestamp, ∃ s',
       executeDraw stBuy randomness timestamp = .ok (s', generateWinningNumber randomness)) ∧
     (∀ randomness timestamp e, executeDraw stBuy randomness timestamp ≠ .error e) ∧
     (∀ p n v, buyTicket stBuy p n v ≠ .error .DrawAlreadyExecuted) ∧
     (∀ p n, ∃ s' idx, buyTicket stBuy p n TICKET_PRICE = .ok (s', idx))) :=
  ⟨stBuy_reachable, claim_C10 stBuy stBuy_reachable⟩

/-- Claim C5: a purchase whose payment differs from the fixed ticket
price in either direction fails with `InvalidPayment` and changes no
state — no ticket is created, the ticket count is unchanged, and no
score is initialized; a purchase succeeds only with payment exactly
equal to the price. -/
theorem claim_C5 (s : State) (p n v : Nat) :
    (v ≠ TICKET_PRICE →
      buyTicket s p n v = .error .InvalidPayment ∧
      applyOp s (.buy p n v) = s ∧
      (∀ q, totalTickets (applyOp s (.buy p n v)) q = totalTickets s q ∧
        getScore (applyOp s (.buy p n v)) q = getScore s q ∧
        (applyOp s (.buy p n v)).scoreInitialized q = s.scoreInitialized q)) ∧
    (∀ s' idx, buyTicket s p n v = .ok (s', idx) → v = TICKET_PRICE) := by
  constructor
  · intro hv
    have herr : buyTicket s p n v = .error .InvalidPayment :=
      (buyTicket_invalidPayment_iff s p n v).mpr hv
    have hfix : applyOp s (.buy p n v) = s := applyOp_buy_error herr
    exact ⟨herr, hfix, fun q => by rw [hfix]; exact ⟨rfl, rfl, rfl⟩⟩
  · intro s' idx hok
    exact (buyTicket_ok_cases hok).1

/-- Witness for C5: paying 1 wei instead of the price fails and leaves
the fresh state unchanged. -/
theorem claim_C5_witness :
    (1 ≠ TICKET_PRICE) ∧
    buyTicket (initState 0) 7 3 1 = .error .InvalidPayment ∧
    applyOp (initState 0) (.buy 7 3 1) = initState 0 ∧
    totalTickets (applyOp (initState 0) (.buy 7 3 1)) 7 = totalTickets (initState 0) 7 := by
  have h := (claim_C5 (initState 0) 7 3 1).1 (by decide)
  exact ⟨by decide, h.1, h.2.1, (h.2.2 7).1⟩

/-- Claim C6: each successful purchase appends exactly one ticket for
the buyer, returning the index equal to the previous ticket count (so
indices are sequential from 0); the new ticket is bound to the active
draw with `claimed = false`; other players' counts are untouched; a
failed purchase changes nothing. -/
theorem claim_C6 (s : State) (p n v : Nat) :
    (∀ s' idx, buyTicket s p n v = .ok (s', idx) →
      totalTickets s' p = totalTickets s p + 1 ∧
      idx = totalTickets s p ∧
      (getTickets s' p)[idx]? = some ⟨n % U8, s.currentDrawId, false⟩ ∧
      s'.currentDrawId = s.currentDrawId ∧
      (∀ q, q ≠ p → totalTickets s' q = totalTickets s q)) ∧
    (∀ e, buyTicket s p n v = .error e → applyOp s (.buy p n v) = s) := by
  constructor
  · intro s' idx hok
    obtain ⟨-, -, hidx, hself, hother, -, hc, -, -, -, -⟩ := buyTicket_ok_cases hok
    refine ⟨?_, hidx, ?_, hc, ?_⟩
    · unfold totalTickets
      rw [hself]
      simp
    · unfold getTickets
      rw [hself, hidx]
      exact List.getElem?_concat_length _ _
    · intro q hq
      unfold totalTickets
      rw [hother q hq]
  · intro e herr
    exact applyOp_buy_error herr

/-- Witness for C6: the purchase recorded in `stBuy` returned index 0
and appended the ticket `⟨1, 1, false⟩`. -/
theorem claim_C6_witness :
    buyTicket (initState 0) 7 1 TICKET_PRICE = .ok (stBuy, 0) ∧
    totalTickets stBuy 7 = totalTickets (initState 0) 7 + 1 ∧
    (0 : Nat) = totalTickets (initState 0) 7 ∧
    (getTickets stBuy 7)[0]? = some ⟨1 % U8, (initState 0).currentDrawId, false⟩ := by
  have hok : buyTicket (initState 0) 7 1 TICKET_PRICE = .ok (stBuy, 0) := rfl
  have h := (claim_C6 (initState 0) 7 1 TICKET_PRICE).1 stBuy 0 hok
  exact ⟨hok, h.1, h.2.1, h.2.2.1⟩

/-- Claim C7: the winning number is derived deterministically from the
randomness as `(hash mod 9) + 1`, hence always lies in `1..9`, and a
successful `executeDraw` records it unchanged both in the resolved
draw's storage and in the emitted `DrawExecuted` event. -/
theorem claim_C7 :
    (∀ randomness, generateWinningNumber randomness = randomness % 9 + 1 ∧
      1 ≤ generateWinningNumber randomness ∧ generateWinningNumber randomness ≤ 9) ∧
    (∀ s randomness timestamp s' w,
      executeDraw s randomness timestamp = .ok (s', w) →
      w = generateWinningNumber randomness ∧
      (s'.draws s.currentDrawId).winningNumber = w ∧
      (s'.draws s.currentDrawId).executed = true ∧
      s'.events = s.events ++ [.DrawExecuted s.currentDrawId w]) := by
  constructor
  · intro randomness
    have hlt : randomness % 9 < 9 := Nat.mod_lt _ (by omega)
    have hsmall : randomness % 9 + 1 < 256 := by omega
    have heq : generateWinningNumber randomness = randomness % 9 + 1 := by
      unfold generateWinningNumber MAX_NUMBER MIN_NUMBER U8
      exact Nat.mod_eq_of_lt hsmall
    exact ⟨heq, by omega, by omega⟩
  · intro s randomness timestamp s' w hok
    obtain ⟨-, hw, -, hcur, -, -, -, -, -, hev⟩ := executeDraw_ok_cases hok
    exact ⟨hw, by rw [hcur], by rw [hcur], hev⟩

/-- Witness for C7: the draw execution recorded in `stDrawn` used
randomness 0, so the winning number is 1 and is stored in draw 1. -/
theorem claim_C7_witness :
    executeDraw stBuy 0 5 = .ok (stDrawn, 1) ∧
    (1 : Nat) = generateWinningNumber 0 ∧
    (stDrawn.draws stBuy.currentDrawId).winningNumber = 1 ∧
    (stDrawn.draws stBuy.currentDrawId).executed = true ∧
    generateWinningNumber 123456789 = 123456789 % 9 + 1 := by
  have hok : executeDraw stBuy 0 5 = .ok (stDrawn, 1) := rfl
  have h := claim_C7.2 stBuy 0 5 stDrawn 1 hok
  exact ⟨hok, h.1, h.2.1, h.2.2.1, (claim_C7.1 123456789).1⟩

/-- Claim C8: a freshly constructed system has current draw id 1, with
draw 1 present and unexecuted, no other draw slot written, and every
player's score reading as the uninitialized representation; the score
stays so until the player's first successful purchase, which
initializes it to an encrypted zero. -/
theorem claim_C8 (timestamp p : Nat) :
    (initState timestamp).currentDrawId = 1 ∧
    getDraw (initState timestamp) 1 =
      { winningNumber := 0, executedAt := timestamp, executed := false } ∧
    (∀ id, id ≠ 1 → getDraw (initState timestamp) id = defaultDraw) ∧
    getScore (initState timestamp) p = .uninit ∧
    (∀ s n, s.scoreInitialized p = false →
      ∀ s' idx, buyTicket s p n TICKET_PRICE = .ok (s', idx) →
        getScore s' p = .enc 0) ∧
    (∀ s n, Reachable s → getScore s p = .uninit →
      ∀ s' idx, buyTicket s p n TICKET_PRICE = .ok (s', idx) →
        getScore s' p = .enc 0) := by
  refine ⟨rfl, by simp [initState, getDraw], ?_, rfl, ?_, ?_⟩
  · intro id hid
    simp [initState, getDraw, hid]
  · intro s n hsi s' idx hok
    obtain ⟨-, -, -, -, -, -, -, -, -, -, hscore⟩ := buyTicket_ok_cases hok
    unfold getScore
    rw [hscore, if_neg (by rw [hsi]; exact Bool.false_ne_true)]
  · intro s n hreach huninit s' idx hok
    have hsinv := reachable_scoreInv hreach
    have hsi : s.scoreInitialized p = false := by
      cases hcase : s.scoreInitialized p with
      | false => rfl
      | true =>
        obtain ⟨v, hv⟩ := (hsinv p).2 hcase
        rw [getScore, hv] at huninit
        cases huninit
    obtain ⟨-, -, -, -, -, -, -, -, -, -, hscore⟩ := buyTicket_ok_cases hok
    unfold getScore
    rw [hscore, if_neg (by rw [hsi]; exact Bool.false_ne_true)]

/-- Witness for C8: before `stBuy` the deployer-fresh score of player 7
is uninitialized, and the purchase initializes it to an encrypted 0. -/
theorem claim_C8_witness :
    getScore (initState 0) 7 = .uninit ∧
    (initState 0).scoreInitialized 7 = false ∧
    Reachable (initState 0) ∧
    buyTicket (initState 0) 7 1 TICKET_PRICE = .ok (stBuy, 0) ∧
    getScore stBuy 7 = .enc 0 := by
  have hok : buyTicket (initState 0) 7 1 TICKET_PRICE = .ok (stBuy, 0) := rfl
  have h := (claim_C8 0 7).2.2.2.2.2 (initState 0) 1 (.init 0) rfl stBuy 0 hok
  exact ⟨rfl, rfl, .init 0, hok, h⟩

/-- Claim C1: claiming an unclaimed ticket of an executed draw always
succeeds; the player's `euint32` score is increased by exactly the fixed
reward 10 (as a wrapping 32-bit addition, hence exactly `v + 10`
whenever that does not overflow) when the chosen number equals the
winning number, and left unchanged otherwise; in both cases the ticket
is marked claimed and the `TicketClaimProcessed` event is emitted. -/
theorem claim_C1 (s : State) (p i : Nat) (tk : Ticket) (v : Nat)
    (htk : (s.playerTickets p)[i]? = some tk)
    (hcl : tk.claimed = false)
    (hex : (s.draws tk.drawId).executed = true)
    (hscore : s.playerScores p = .enc v) :
    ∃ s', claimTicket s p i = .ok s' ∧
      (tk.number = (s.draws tk.drawId).winningNumber →
        s'.playerScores p = .enc ((v + WIN_REWARD) % U32)) ∧
      (tk.number = (s.draws tk.drawId).winningNumber → v + WIN_REWARD < U32 →
        s'.playerScores p = .enc (v + WIN_REWARD)) ∧
      (tk.number ≠ (s.draws tk.drawId).winningNumber →
        s'.playerScores p = .enc v) ∧
      (s'.playerTickets p)[i]? = some { tk with claimed := true } ∧
      s'.events = s.events ++ [.TicketClaimProcessed p tk.drawId i] := by
  have hi : i < (s.playerTickets p).length := (List.getElem?_eq_some.mp htk).1
  obtain ⟨s', hok⟩ := claimTicket_ok_of s p i tk htk hcl hex
  obtain ⟨tk0, htk0, -, -, hself, -, hscore', -, -, -, -, hev⟩ :=
    claimTicket_ok_cases hok
  rw [htk] at htk0
  injection htk0 with he
  subst he
  refine ⟨s', hok, ?_, ?_, ?_, ?_, hev⟩
  · intro hwin
    rw [hscore', if_pos hwin, hscore]
    rfl
  · intro hwin hlt
    rw [hscore', if_pos hwin, hscore]
    show EVal.enc ((v + WIN_REWARD) % U32) = EVal.enc (v + WIN_REWARD)
    rw [Nat.mod_eq_of_lt hlt]
  · intro hlose
    rw [hscore', if_neg hlose, hscore]
  · rw [hself]
    exact List.getElem?_set_eq_of_lt _ hi

/-- Witness for C1: in `stDrawn` the ticket ⟨1, 1, false⟩ matches the
winning number 1 of executed draw 1, and claiming it raises the score
from an encrypted 0 to an encrypted 10. -/
theorem claim_C1_witness :
    (stDrawn.playerTickets 7)[0]? = some ⟨1, 1, false⟩ ∧
    (stDrawn.draws 1).executed = true ∧
    stDrawn.playerScores 7 = .enc 0 ∧
    (∃ s', claimTicket stDrawn 7 0 = .ok s' ∧
      s'.playerScores 7 = .enc 10 ∧
      (s'.playerTickets 7)[0]? = some ⟨1, 1, true⟩ ∧
      s'.events = stDrawn.events ++ [.TicketClaimProcessed 7 1 0]) := by
  refine ⟨by decide, by decide, rfl, ?_⟩
  obtain ⟨s', hok, hwin, hwinExact, hlose, hset, hev⟩ :=
    claim_C1 stDrawn 7 0 ⟨1, 1, false⟩ 0 (by decide) rfl (by decide) rfl
  refine ⟨s', hok, ?_, ?_, hev⟩
  · simpa using hwinExact (by decide) (by decide)
  · simpa using hset

/-- Claim C2: `claimTicket` fails with `InvalidIndex` exactly when the
index is at or beyond the player's ticket count; given the ticket
exists, fails with `AlreadyClaimed` exactly when it is claimed; given
it is unclaimed, fails with `DrawNotResolved` exactly when its draw is
unexecuted, and otherwise succeeds; after a successful claim, a repeat
claim on the same pair fails with `AlreadyClaimed` and leaves the state
(in particular the score) unchanged. -/
theorem claim_C2 (s : State) (p i : Nat) :
    (claimTicket s p i = .error .InvalidIndex ↔ totalTickets s p ≤ i) ∧
    (∀ tk, (s.playerTickets p)[i]? = some tk →
      ((claimTicket s p i = .error .AlreadyClaimed ↔ tk.claimed = true) ∧
       (tk.claimed = false →
         ((claimTicket s p i = .error .DrawNotExecuted ↔
            (s.draws tk.drawId).executed = false) ∧
          ((s.draws tk.drawId).executed = true →
            ∃ s', claimTicket s p i = .ok s'))))) ∧
    (∀ s', claimTicket s p i = .ok s' →
      claimTicket s' p i = .error .AlreadyClaimed ∧
      applyOp s' (.claim p i) = s' ∧
      (applyOp s' (.claim p i)).playerScores p = s'.playerScores p) := by
  refine ⟨claimTicket_invalidIndex_iff s p i, ?_, ?_⟩
  · intro tk htk
    refine ⟨claimTicket_alreadyClaimed_iff s p i tk htk, fun hcl => ⟨?_, ?_⟩⟩
    · exact claimTicket_drawNotExecuted_iff s p i tk htk hcl
    · intro hex
      exact claimTicket_ok_of s p i tk htk hcl hex
  · intro s' hok
    obtain ⟨tk, htk, -, -, hself, -, -, -, -, -, -, -⟩ := claimTicket_ok_cases hok
    have hi : i < (s.playerTickets p).length := (List.getElem?_eq_some.mp htk).1
    have htk' : (s'.playerTickets p)[i]? = some { tk with claimed := true } := by
      rw [hself]
      exact List.getElem?_set_eq_of_lt _ hi
    have herr : claimTicket s' p i = .error .AlreadyClaimed :=
      (claimTicket_alreadyClaimed_iff s' p i _ htk').mpr rfl
    exact ⟨herr, applyOp_claim_error herr, by rw [applyOp_claim_error herr]⟩

/-- Witness for C2: claiming index 1 with a single ticket fails with
`InvalidIndex`; re-claiming the settled ticket of `stClaimed` fails with
`AlreadyClaimed` and changes nothing. -/
theorem claim_C2_witness :
    claimTicket stDrawn 7 1 = .error .InvalidIndex ∧
    claimTicket stDrawn 7 0 = .ok stClaimed ∧
    claimTicket stClaimed 7 0 = .error .AlreadyClaimed ∧
    applyOp stClaimed (.claim 7 0) = stClaimed ∧
    stClaimed.playerScores 7 = .enc 10 := by
  have hok : claimTicket stDrawn 7 0 = .ok stClaimed := rfl
  have h3 := (claim_C2 stDrawn 7 0).2.2 stClaimed hok
  refine ⟨?_, hok, h3.1, h3.2.1, by decide⟩
  exact (claim_C2 stDrawn 7 1).1.mpr (by decide)

/-- Claim C9: ticket counts never decrease (no ticket is ever deleted);
an existing ticket keeps its chosen number and bound draw id under every
operation and its claimed flag only moves false→true; a successful
`claimTicket` changes only that ticket's claimed flag and the caller's
score, leaving every other ticket, every other player's score, all
draws, and the current draw id unchanged. -/
theorem claim_C9 :
    (∀ (s : State) (op : Op) (p : Nat),
      totalTickets s p ≤ totalTickets (applyOp s op) p) ∧
    (∀ (s : State) (op : Op) (p i : Nat) (tk : Ticket),
      (s.playerTickets p)[i]? = some tk →
      ∃ tk', ((applyOp s op).playerTickets p)[i]? = some tk' ∧
        tk'.number = tk.number ∧ tk'.drawId = tk.drawId ∧
        (tk.claimed = true → tk'.claimed = true)) ∧
    (∀ (s : State) (p i : Nat) (s' : State), claimTicket s p i = .ok s' →
      ∃ tk, (s.playerTickets p)[i]? = some tk ∧ tk.claimed = false ∧
        (s'.playerTickets p)[i]? = some { tk with claimed := true } ∧
        (∀ j, j ≠ i → (s'.playerTickets p)[j]? = (s.playerTickets p)[j]?) ∧
        (∀ q, q ≠ p → s'.playerTickets q = s.playerTickets q ∧
          s'.playerScores q = s.playerScores q) ∧
        s'.draws = s.draws ∧
        s'.currentDrawId = s.currentDrawId ∧
        s'.scoreInitialized = s.scoreInitialized ∧
        totalTickets s' p = totalTickets s p) := by
  refine ⟨fun s op p => ticketCount_mono_applyOp s op p,
    fun s op p i tk htk => ticket_persistent_applyOp s op p i tk htk, ?_⟩
  intro s p i s' hok
  obtain ⟨tk, htk, hcl, -, hself, hother, -, hother', hsi, hdraws, hcur, -⟩ :=
    claimTicket_ok_cases hok
  have hi : i < (s.playerTickets p).length := (List.getElem?_eq_some.mp htk).1
  refine ⟨tk, htk, hcl, ?_, ?_, fun q hq => ⟨hother q hq, hother' q hq⟩,
    hdraws, hcur, hsi, ?_⟩
  · rw [hself]
    exact List.getElem?_set_eq_of_lt _ hi
  · intro j hj
    rw [hself, List.getElem?_set_ne (Ne.symm hj)]
  · unfold totalTickets
    rw [hself]
    simp

/-- Witness for C9: the claim recorded in `stClaimed` flips exactly the
claimed flag of ticket 0 and leaves the draw registry, counter and
ticket count unchanged. -/
theorem claim_C9_witness :
    claimTicket stDrawn 7 0 = .ok stClaimed ∧
    totalTickets stDrawn 7 ≤ totalTickets (applyOp stDrawn (.claim 7 0)) 7 ∧
    (stDrawn.playerTickets 7)[0]? = some ⟨1, 1, false⟩ ∧
    stClaimed.draws = stDrawn.draws ∧
    stClaimed.currentDrawId = stDrawn.currentDrawId ∧
    totalTickets stClaimed 7 = totalTickets stDrawn 7 := by
  have hok : claimTicket stDrawn 7 0 = .ok stClaimed := rfl
  obtain ⟨tk, htk, hcl, hset, hframe, hframeq, hdraws, hcur, hsi, hcount⟩ :=
    claim_C9.2.2 stDrawn 7 0 stClaimed hok
  exact ⟨hok, claim_C9.1 stDrawn (.claim 7 0) 7, by decide, hdraws, hcur, hcount⟩

end LuckyBall
